import Mathlib

/-!
Verification of `src/gcs_service.py` (Google Cloud Storage adapter for hero
banner images).

The module holds process-wide state (`_storage_client`, `_bucket`), set once
by `init_gcs_client` and read by `upload_hero_image` / `delete_hero_image`.
The vendor SDK is an opaque external collaborator: we model its behaviour on
each call site by an oracle (`Provider`) that says whether the call succeeds
or raises, and which exception class it raises (the code only distinguishes
`NotFound` from every other `Exception`).

Machine-level notes on the embedding:
* Python truthiness `if not _bucket:` on an `Optional[Bucket]` is a
  none-check (the SDK's `Bucket` defines no `__bool__`/`__len__`).
* `uuid.uuid4().hex` is modelled by `uuidHex u` for an arbitrary 128-bit
  draw `u`: the 32 hex digits of `u`, most significant first, zero-padded.
* `os.path.splitext(filename)[1]` is translated from CPython's
  `genericpath._splitext` for posix (`sep = '/'`, no altsep, `extsep = '.'`).
* `str.lower` is modelled per-character on ASCII (`Char.toLower`); the
  allow-list membership test the code performs is insensitive to the
  behaviour on non-ASCII characters, since the allow-list is ASCII.
-/

namespace GcsService

/-- `storage.Client(project=...)`: an opaque handle; we keep the project
argument it was constructed with. -/
structure StorageClient where
  project : Option String
deriving DecidableEq, Repr

/-- `storage.Bucket` handle obtained from `client.bucket(name)`. -/
structure Bucket where
  name : String
deriving DecidableEq, Repr

/-- The module-level configuration read from the environment at import time
(`GCS_BUCKET_NAME`, `GCS_PROJECT_ID`; `os.getenv(_, "")` defaults to `""`). -/
structure Config where
  GCS_BUCKET_NAME : String
  GCS_PROJECT_ID : String
deriving DecidableEq, Repr

/-- `HERO_IMAGES_FOLDER = "hero_images"` (line 18). -/
def HERO_IMAGES_FOLDER : String := "hero_images"

/-- The process-wide module state: `_storage_client` and `_bucket`
(lines 21-22), both `None` at process start. -/
structure GCSState where
  _storage_client : Option StorageClient
  _bucket : Option Bucket
deriving DecidableEq, Repr

/-- The state at process start: both globals are `None`. -/
def GCSState.initial : GCSState := ⟨none, none⟩

/-- Exception classes the code distinguishes: `google.cloud.exceptions.NotFound`
versus every other `Exception`. -/
inductive PyExc where
  | notFound
  | other
deriving DecidableEq, Repr

/-- Oracle for the behaviour of each SDK call the module makes: either the
call returns normally (`.ok`) or it raises (`.error e`). -/
structure Provider where
  /-- `storage.Client(project=...)` (line 40). -/
  clientResult : Except PyExc Unit
  /-- `_bucket.exists()` (line 44): may return a Bool or raise. -/
  existsResult : Except PyExc Bool
  /-- `blob.upload_from_string(...)` (lines 96-99). -/
  uploadResult : Except PyExc Unit
  /-- `blob.delete()` (line 128). -/
  deleteResult : Except PyExc Unit
deriving Repr

/-- Index of the last occurrence of `c` in `l`, if any (Python `str.rfind`,
with `none` for `-1`). -/
def lastIndexOf (l : List Char) (c : Char) : Option Nat :=
  ((List.range l.length).filter (fun i => l.get? i == some c)).getLast?

/-- `os.path.splitext(p)[1]` for posix paths, translated from CPython's
`genericpath._splitext`: the extension starts at the last `'.'` provided it
lies after the last `'/'` and the basename is not entirely leading dots. -/
def splitextExt (p : String) : String :=
  let l := p.data
  let sepIndex : Int := match lastIndexOf l '/' with
    | some i => (i : Int)
    | none => -1
  let dotIndex : Int := match lastIndexOf l '.' with
    | some i => (i : Int)
    | none => -1
  if sepIndex < dotIndex then
    -- skip all leading dots of the basename: there must be a non-dot
    -- character strictly between sepIndex and dotIndex
    if (List.range l.length).any
        (fun k => decide (sepIndex < (k : Int)) && decide ((k : Int) < dotIndex)
          && (l.get? k != some '.')) then
      String.mk (l.drop dotIndex.toNat)
    else ""
  else ""

/-- Python `str.lower()` restricted to ASCII, applied per character. -/
def pyLower (s : String) : String := String.mk (s.data.map Char.toLower)

/-- The extension allow-list of line 88: `[".jpg", ".jpeg", ".png", ".webp"]`. -/
def allowedExts : List String := [".jpg", ".jpeg", ".png", ".webp"]

/-- Lines 87-89: `ext = os.path.splitext(filename)[1].lower()`, replaced by
`".jpg"` when not in the allow-list. -/
def heroExt (filename : String) : String :=
  let ext := pyLower (splitextExt filename)
  if allowedExts.contains ext then ext else ".jpg"

/-- Hex digit character for `n < 16` (lowercase, as `uuid.hex` produces). -/
def hexDigit (n : Nat) : Char :=
  Char.ofNat (if n < 10 then 48 + n else 87 + n)

/-- `uuid.uuid4().hex` for the 128-bit draw `u`: 32 lowercase hex digits,
most significant first, zero-padded. -/
def uuidHex (u : Nat) : String :=
  String.mk ((List.range 32).map (fun i => hexDigit (u / 16 ^ (31 - i) % 16)))

/-- `c` is a lowercase hexadecimal digit character. -/
def isHexChar (c : Char) : Bool :=
  (48 ≤ c.toNat && c.toNat ≤ 57) || (97 ≤ c.toNat && c.toNat ≤ 102)

/-- `blob.public_url` (line 102) for the names this module generates: the
provider's canonical pattern `https://storage.googleapis.com/{bucket}/{name}`
(the SDK's percent-quoting is the identity on the generated names). -/
def blobPublicUrl (bucketName objectName : String) : String :=
  "https://storage.googleapis.com/" ++ bucketName ++ "/" ++ objectName

/-- `init_gcs_client()` (lines 25-52). Returns the boolean result and the
module state after the call. The `try` body assigns `_storage_client` and
`_bucket` before the existence check, so a raise or a `False` from
`exists()` leaves both globals set. -/
def init_gcs_client (cfg : Config) (prov : Provider) (st : GCSState) :
    Bool × GCSState :=
  if cfg.GCS_BUCKET_NAME = "" then
    (false, st)
  else
    match prov.clientResult with
    | .error _ => (false, st)
    | .ok _ =>
      let client : StorageClient :=
        ⟨if cfg.GCS_PROJECT_ID = "" then none else some cfg.GCS_PROJECT_ID⟩
      let st1 : GCSState := ⟨some client, some ⟨cfg.GCS_BUCKET_NAME⟩⟩
      match prov.existsResult with
      | .error _ => (false, st1)
      | .ok false => (false, st1)
      | .ok true => (true, st1)

/-- `upload_hero_image(file_data, filename, content_type)` (lines 65-109),
with `u` the `uuid.uuid4()` draw. Returns the `(success, object_name,
public_url)` tuple and the module state after the call (the function never
assigns the globals). -/
def upload_hero_image (prov : Provider) (st : GCSState) (u : Nat)
    (file_data : List Nat) (filename : String) (content_type : String) :
    (Bool × String × String) × GCSState :=
  match st._bucket with
  | none => ((false, "", ""), st)
  | some b =>
    let ext := heroExt filename
    let unique_name := uuidHex u ++ ext
    let object_name := HERO_IMAGES_FOLDER ++ "/" ++ unique_name
    match prov.uploadResult with
    | .error _ => ((false, "", ""), st)
    | .ok _ => ((true, object_name, blobPublicUrl b.name object_name), st)

/-- `delete_hero_image(object_name)` (lines 112-138). Returns the boolean
result and the module state after the call. -/
def delete_hero_image (prov : Provider) (st : GCSState) (object_name : String) :
    Bool × GCSState :=
  match st._bucket with
  | none => (false, st)
  | some _ =>
    match prov.deleteResult with
    | .ok _ => (true, st)
    | .error .notFound => (true, st)
    | .error .other => (false, st)

/-- `get_public_url(object_name)` (lines 141-151): pure string formatting
from the configured bucket name; takes no provider and no state. -/
def get_public_url (cfg : Config) (object_name : String) : String :=
  "https://storage.googleapis.com/" ++ cfg.GCS_BUCKET_NAME ++ "/" ++ object_name

/-! ### Concrete fixtures used by the witnesses -/

/-- A configuration with bucket `"my-bucket"` and no project id. -/
def cfgMB : Config := ⟨"my-bucket", ""⟩

/-- A module state after a fully successful initialization against `cfgMB`. -/
def stSet : GCSState := ⟨some ⟨none⟩, some ⟨"my-bucket"⟩⟩

/-- A provider on which every SDK call returns normally. -/
def provOk : Provider := ⟨.ok (), .ok true, .ok (), .ok ()⟩

/-- A provider whose bucket-existence check returns `False`. -/
def provNoBucket : Provider := ⟨.ok (), .ok false, .ok (), .ok ()⟩

/-- A provider on which every SDK call raises a generic `Exception`. -/
def provErr : Provider := ⟨.error .other, .error .other, .error .other, .error .other⟩

/-- A provider whose delete call raises `NotFound`. -/
def provNF : Provider := ⟨.ok (), .ok true, .ok (), .error .notFound⟩

/-! ### Helper lemmas -/

theorem str_append_assoc (a b c : String) : (a ++ b) ++ c = a ++ (b ++ c) := by
  rcases a with ⟨la⟩
  rcases b with ⟨lb⟩
  rcases c with ⟨lc⟩
  show String.mk ((la ++ lb) ++ lc) = String.mk (la ++ (lb ++ lc))
  rw [List.append_assoc]

theorem hero_lit : ("hero_images" : String) ++ "/" = "hero_images/" := by decide

theorem hero_fold (s : String) :
    "hero_images" ++ ("/" ++ s) = "hero_images/" ++ s := by
  rw [← str_append_assoc, hero_lit]

theorem uuidHex_length (u : Nat) : (uuidHex u).length = 32 := by
  show ((List.range 32).map (fun i => hexDigit (u / 16 ^ (31 - i) % 16))).length = 32
  rw [List.length_map, List.length_range]

theorem hexDigit_isHex : ∀ n < 16, isHexChar (hexDigit n) = true := by decide

theorem uuidHex_isHex (u : Nat) : ∀ c ∈ (uuidHex u).data, isHexChar c = true := by
  intro c hc
  simp [uuidHex] at hc
  obtain ⟨i, _, rfl⟩ := hc
  exact hexDigit_isHex _ (Nat.mod_lt _ (by norm_num))

theorem heroExt_mem (filename : String) : heroExt filename ∈ allowedExts := by
  by_cases h : pyLower (splitextExt filename) ∈ allowedExts
  · have he : heroExt filename = pyLower (splitextExt filename) := by
      simp [heroExt, h]
    rw [he]
    exact h
  · have he : heroExt filename = ".jpg" := by
      simp [heroExt, h]
    rw [he]
    simp [allowedExts]

/-- On the success path (bucket set, provider write returns normally),
`upload_hero_image` returns the full success tuple and leaves the state
unchanged. -/
theorem upload_hero_image_ok (prov : Provider) (st : GCSState) (b : Bucket)
    (hb : st._bucket = some b) (hok : prov.uploadResult = .ok ())
    (u : Nat) (file_data : List Nat) (filename content_type : String) :
    upload_hero_image prov st u file_data filename content_type =
      ((true, "hero_images/" ++ uuidHex u ++ heroExt filename,
        "https://storage.googleapis.com/" ++ b.name ++ "/"
          ++ ("hero_images/" ++ uuidHex u ++ heroExt filename)), st) := by
  simp [upload_hero_image, hb, hok, blobPublicUrl, HERO_IMAGES_FOLDER,
    str_append_assoc, hero_fold]

/-! ### Claims -/

/-- C1: if the process-wide bucket state is unset, `upload_hero_image`
returns `(false, "", "")` and `delete_hero_image` returns `false`, for every
argument value and every provider behaviour (the result does not consult the
provider, so no provider call is attempted). -/
theorem C1_ops_fail_when_bucket_unset (prov : Provider) (st : GCSState)
    (h : st._bucket = none) (u : Nat) (file_data : List Nat)
    (filename content_type object_name : String) :
    (upload_hero_image prov st u file_data filename content_type).1
        = (false, "", "") ∧
    (delete_hero_image prov st object_name).1 = false := by
  constructor
  · simp [upload_hero_image, h]
  · simp [delete_hero_image, h]

/-- Witness for C1 at the initial (uninitialized) state. -/
theorem C1_ops_fail_when_bucket_unset_witness :
    GCSState.initial._bucket = none ∧
    (upload_hero_image provOk GCSState.initial 0 [] "photo.png" "image/png").1
        = (false, "", "") ∧
    (delete_hero_image provOk GCSState.initial "hero_images/x.jpg").1 = false :=
  ⟨rfl, C1_ops_fail_when_bucket_unset provOk GCSState.initial rfl 0 []
    "photo.png" "image/png" "hero_images/x.jpg"⟩

/-- C2: with the bucket set and the write accepted, the object name returned
by `upload_hero_image` is `"hero_images/"` followed by a 32-character
hexadecimal token and then the (allow-listed) extension. -/
theorem C2_object_name_convention (prov : Provider) (st : GCSState) (b : Bucket)
    (hb : st._bucket = some b) (hok : prov.uploadResult = Except.ok ())
    (u : Nat) (file_data : List Nat) (filename content_type : String) :
    ∃ tok ext,
      (upload_hero_image prov st u file_data filename content_type).1.2.1
          = "hero_images/" ++ tok ++ ext
        ∧ tok.length = 32
        ∧ (∀ c ∈ tok.data, isHexChar c = true)
        ∧ ext ∈ allowedExts := by
  refine ⟨uuidHex u, heroExt filename, ?_, uuidHex_length u, uuidHex_isHex u,
    heroExt_mem filename⟩
  rw [upload_hero_image_ok prov st b hb hok u file_data filename content_type]

/-- Witness for C2 at a concrete state, provider, draw and filename. -/
theorem C2_object_name_convention_witness :
    stSet._bucket = some ⟨"my-bucket"⟩ ∧
    provOk.uploadResult = Except.ok () ∧
    ∃ tok ext,
      (upload_hero_image provOk stSet 0 [] "photo.PNG" "image/png").1.2.1
          = "hero_images/" ++ tok ++ ext
        ∧ tok.length = 32
        ∧ (∀ c ∈ tok.data, isHexChar c = true)
        ∧ ext ∈ allowedExts :=
  ⟨rfl, rfl,
    C2_object_name_convention provOk stSet ⟨"my-bucket"⟩ rfl rfl 0 []
      "photo.PNG" "image/png"⟩

/-- C3: with the bucket set and the write accepted, an extension whose
lowercasing lies in the allow-list is preserved (lowercased) at the end of
the generated object name, and any other (or missing) extension yields a
name ending in `".jpg"`. -/
theorem C3_extension_normalization (prov : Provider) (st : GCSState) (b : Bucket)
    (hb : st._bucket = some b) (hok : prov.uploadResult = Except.ok ())
    (u : Nat) (file_data : List Nat) (filename content_type : String) :
    (pyLower (splitextExt filename) ∈ allowedExts →
      ∃ p, (upload_hero_image prov st u file_data filename content_type).1.2.1
          = p ++ pyLower (splitextExt filename)) ∧
    (pyLower (splitextExt filename) ∉ allowedExts →
      ∃ p, (upload_hero_image prov st u file_data filename content_type).1.2.1
          = p ++ ".jpg") := by
  rw [upload_hero_image_ok prov st b hb hok u file_data filename content_type]
  constructor
  · intro h
    refine ⟨"hero_images/" ++ uuidHex u, ?_⟩
    simp [heroExt, h]
  · intro h
    refine ⟨"hero_images/" ++ uuidHex u, ?_⟩
    simp [heroExt, h]

/-- Witness for C3: an upper-case allow-listed extension, and a
non-allow-listed one. -/
theorem C3_extension_normalization_witness :
    stSet._bucket = some ⟨"my-bucket"⟩ ∧
    provOk.uploadResult = Except.ok () ∧
    pyLower (splitextExt "photo.PNG") ∈ allowedExts ∧
    (∃ p, (upload_hero_image provOk stSet 0 [] "photo.PNG" "image/png").1.2.1
        = p ++ pyLower (splitextExt "photo.PNG")) ∧
    pyLower (splitextExt "notes.txt") ∉ allowedExts ∧
    (∃ p, (upload_hero_image provOk stSet 0 [] "notes.txt" "image/jpeg").1.2.1
        = p ++ ".jpg") := by
  refine ⟨rfl, rfl, by decide, ?_, by decide, ?_⟩
  · exact (C3_extension_normalization provOk stSet ⟨"my-bucket"⟩ rfl rfl 0 []
      "photo.PNG" "image/png").1 (by decide)
  · exact (C3_extension_normalization provOk stSet ⟨"my-bucket"⟩ rfl rfl 0 []
      "notes.txt" "image/jpeg").2 (by decide)

/-- C4: whenever the provider write raises no exception, `upload_hero_image`
returns `true`, an object name matching the naming convention, and a public
URL exactly equal to
`https://storage.googleapis.com/` ++ bucket ++ `/` ++ objectName. -/
theorem C4_upload_success_contract (prov : Provider) (st : GCSState) (b : Bucket)
    (hb : st._bucket = some b) (hok : prov.uploadResult = Except.ok ())
    (u : Nat) (file_data : List Nat) (filename content_type : String) :
    (upload_hero_image prov st u file_data filename content_type).1
        = (true, "hero_images/" ++ uuidHex u ++ heroExt filename,
            "https://storage.googleapis.com/" ++ b.name ++ "/"
              ++ ("hero_images/" ++ uuidHex u ++ heroExt filename))
      ∧ (uuidHex u).length = 32
      ∧ (∀ c ∈ (uuidHex u).data, isHexChar c = true)
      ∧ heroExt filename ∈ allowedExts := by
  refine ⟨?_, uuidHex_length u, uuidHex_isHex u, heroExt_mem filename⟩
  rw [upload_hero_image_ok prov st b hb hok u file_data filename content_type]

/-- Witness for C4 at a concrete state, provider, draw and filename. -/
theorem C4_upload_success_contract_witness :
    stSet._bucket = some ⟨"my-bucket"⟩ ∧
    provOk.uploadResult = Except.ok () ∧
    (upload_hero_image provOk stSet 0 [] "photo.PNG" "image/png").1
        = (true, "hero_images/" ++ uuidHex 0 ++ heroExt "photo.PNG",
            "https://storage.googleapis.com/" ++ "my-bucket" ++ "/"
              ++ ("hero_images/" ++ uuidHex 0 ++ heroExt "photo.PNG"))
      ∧ (uuidHex 0).length = 32
      ∧ (∀ c ∈ (uuidHex 0).data, isHexChar c = true)
      ∧ heroExt "photo.PNG" ∈ allowedExts :=
  ⟨rfl, rfl,
    C4_upload_success_contract provOk stSet ⟨"my-bucket"⟩ rfl rfl 0 []
      "photo.PNG" "image/png"⟩

/-- C5: with the bucket set, `delete_hero_image` has exactly three outcomes:
provider delete returns normally → `true`; provider raises `NotFound` →
`true` (idempotent-delete policy); provider raises any other exception →
`false`. -/
theorem C5_delete_outcomes (prov : Provider) (st : GCSState) (b : Bucket)
    (hb : st._bucket = some b) (object_name : String) :
    (prov.deleteResult = Except.ok () →
      (delete_hero_image prov st object_name).1 = true) ∧
    (prov.deleteResult = Except.error PyExc.notFound →
      (delete_hero_image prov st object_name).1 = true) ∧
    (prov.deleteResult = Except.error PyExc.other →
      (delete_hero_image prov st object_name).1 = false) := by
  refine ⟨fun h => ?_, fun h => ?_, fun h => ?_⟩ <;>
    simp [delete_hero_image, hb, h]

/-- Witness for C5: all three provider outcomes at a concrete state. -/
theorem C5_delete_outcomes_witness :
    stSet._bucket = some ⟨"my-bucket"⟩ ∧
    (delete_hero_image provOk stSet "hero_images/a.jpg").1 = true ∧
    (delete_hero_image provNF stSet "hero_images/a.jpg").1 = true ∧
    (delete_hero_image provErr stSet "hero_images/a.jpg").1 = false :=
  ⟨rfl,
    (C5_delete_outcomes provOk stSet ⟨"my-bucket"⟩ rfl "hero_images/a.jpg").1 rfl,
    (C5_delete_outcomes provNF stSet ⟨"my-bucket"⟩ rfl "hero_images/a.jpg").2.1 rfl,
    (C5_delete_outcomes provErr stSet ⟨"my-bucket"⟩ rfl "hero_images/a.jpg").2.2 rfl⟩

/-- C6: with an empty configured bucket name, `init_gcs_client` returns
`false` and leaves the process-wide state unchanged, for every provider
behaviour (the result does not consult the provider, so no client is
constructed and no network call is made). -/
theorem C6_empty_bucket_name_init (cfg : Config) (prov : Provider)
    (st : GCSState) (h : cfg.GCS_BUCKET_NAME = "") :
    init_gcs_client cfg prov st = (false, st) := by
  simp [init_gcs_client, h]

/-- Witness for C6 at the empty configuration. -/
theorem C6_empty_bucket_name_init_witness :
    (⟨"", "proj"⟩ : Config).GCS_BUCKET_NAME = "" ∧
    init_gcs_client ⟨"", "proj"⟩ provOk GCSState.initial
      = (false, GCSState.initial) :=
  ⟨rfl, C6_empty_bucket_name_init ⟨"", "proj"⟩ provOk GCSState.initial rfl⟩

/-- C7: `get_public_url` is a pure string computation (it takes neither the
provider nor the module state), equal to the literal pattern
`https://storage.googleapis.com/` ++ bucket ++ `/` ++ objectName; at bucket
`"my-bucket"` and object `"hero_images/abc.jpg"` it returns exactly
`"https://storage.googleapis.com/my-bucket/hero_images/abc.jpg"`. -/
theorem C7_get_public_url_pure (cfg : Config) (object_name : String) :
    get_public_url cfg object_name
        = "https://storage.googleapis.com/" ++ cfg.GCS_BUCKET_NAME ++ "/"
            ++ object_name
      ∧ get_public_url cfgMB "hero_images/abc.jpg"
        = "https://storage.googleapis.com/my-bucket/hero_images/abc.jpg" :=
  ⟨rfl, by decide⟩

/-- C8: no exception escapes the three operations: for every exception the
provider may raise, `init_gcs_client` returns `false` (with the state
unchanged when the client constructor itself raised), `upload_hero_image`
returns `(false, "", "")`, and `delete_hero_image` returns a plain boolean —
`false` from its catch-all handler, and `true` from its `NotFound` handler
whenever the bucket was set. -/
theorem C8_exceptions_do_not_escape (cfg : Config) (prov : Provider)
    (st : GCSState) (u : Nat) (file_data : List Nat)
    (filename content_type object_name : String) (e : PyExc) :
    (prov.clientResult = Except.error e →
      init_gcs_client cfg prov st = (false, st)) ∧
    (prov.existsResult = Except.error e →
      (init_gcs_client cfg prov st).1 = false) ∧
    (prov.uploadResult = Except.error e →
      (upload_hero_image prov st u file_data filename content_type).1
        = (false, "", "")) ∧
    (prov.deleteResult = Except.error PyExc.other →
      (delete_hero_image prov st object_name).1 = false) ∧
    (prov.deleteResult = Except.error PyExc.notFound →
      (delete_hero_image prov st object_name).1 = st._bucket.isSome) := by
  refine ⟨fun h => ?_, fun h => ?_, fun h => ?_, fun h => ?_, fun h => ?_⟩
  · by_cases hn : cfg.GCS_BUCKET_NAME = "" <;> simp [init_gcs_client, hn, h]
  · by_cases hn : cfg.GCS_BUCKET_NAME = ""
    · simp [init_gcs_client, hn]
    · cases hc : prov.clientResult with
      | error e2 => simp [init_gcs_client, hn, hc]
      | ok v => simp [init_gcs_client, hn, hc, h]
  · cases hb : st._bucket <;> simp [upload_hero_image, hb, h]
  · cases hb : st._bucket <;> simp [delete_hero_image, hb, h]
  · cases hb : st._bucket <;> simp [delete_hero_image, hb, h]

/-- Witness for C8: a provider raising a generic exception on every call,
and one raising `NotFound` on delete. -/
theorem C8_exceptions_do_not_escape_witness :
    provErr.clientResult = Except.error PyExc.other ∧
    init_gcs_client cfgMB provErr stSet = (false, stSet) ∧
    (init_gcs_client cfgMB provErr stSet).1 = false ∧
    (upload_hero_image provErr stSet 0 [] "photo.png" "image/png").1
      = (false, "", "") ∧
    (delete_hero_image provErr stSet "hero_images/a.jpg").1 = false ∧
    (delete_hero_image provNF stSet "hero_images/a.jpg").1
      = stSet._bucket.isSome :=
  ⟨rfl,
    (C8_exceptions_do_not_escape cfgMB provErr stSet 0 [] "photo.png"
      "image/png" "hero_images/a.jpg" PyExc.other).1 rfl,
    (C8_exceptions_do_not_escape cfgMB provErr stSet 0 [] "photo.png"
      "image/png" "hero_images/a.jpg" PyExc.other).2.1 rfl,
    (C8_exceptions_do_not_escape cfgMB provErr stSet 0 [] "photo.png"
      "image/png" "hero_images/a.jpg" PyExc.other).2.2.1 rfl,
    (C8_exceptions_do_not_escape cfgMB provErr stSet 0 [] "photo.png"
      "image/png" "hero_images/a.jpg" PyExc.other).2.2.2.1 rfl,
    (C8_exceptions_do_not_escape cfgMB provNF stSet 0 [] "photo.png"
      "image/png" "hero_images/a.jpg" PyExc.other).2.2.2.2 rfl⟩

/-- C9: when the existence check itself returns `False` (no exception),
`init_gcs_client` returns `false` but has already stored both handles, so a
subsequent `upload_hero_image` or `delete_hero_image` passes its
precondition check and reaches the provider call (succeeding when the
provider accepts it). -/
theorem C9_init_not_atomic (cfg : Config) (prov : Provider) (st : GCSState)
    (hname : cfg.GCS_BUCKET_NAME ≠ "")
    (hclient : prov.clientResult = Except.ok ())
    (hexists : prov.existsResult = Except.ok false) :
    (init_gcs_client cfg prov st).1 = false ∧
    (init_gcs_client cfg prov st).2._bucket = some ⟨cfg.GCS_BUCKET_NAME⟩ ∧
    (init_gcs_client cfg prov st).2._storage_client ≠ none ∧
    (∀ (prov2 : Provider) (u : Nat) (file_data : List Nat)
        (filename content_type : String),
      prov2.uploadResult = Except.ok () →
      ((upload_hero_image prov2 (init_gcs_client cfg prov st).2 u file_data
          filename content_type).1).1 = true) ∧
    (∀ (prov2 : Provider) (object_name : String),
      prov2.deleteResult = Except.ok () →
      (delete_hero_image prov2 (init_gcs_client cfg prov st).2 object_name).1
        = true) := by
  have hinit : init_gcs_client cfg prov st =
      (false,
        ⟨some ⟨if cfg.GCS_PROJECT_ID = "" then none
               else some cfg.GCS_PROJECT_ID⟩,
         some ⟨cfg.GCS_BUCKET_NAME⟩⟩) := by
    simp [init_gcs_client, hname, hclient, hexists]
  rw [hinit]
  refine ⟨rfl, rfl, by simp, ?_, ?_⟩
  · intro prov2 u file_data filename content_type h2
    rw [upload_hero_image_ok prov2 _ ⟨cfg.GCS_BUCKET_NAME⟩ rfl h2 u file_data
      filename content_type]
  · intro prov2 object_name h2
    simp [delete_hero_image, h2]

/-- Witness for C9: a bucket-absent initialization followed by an upload and
a delete that both reach the provider. -/
theorem C9_init_not_atomic_witness :
    cfgMB.GCS_BUCKET_NAME ≠ "" ∧
    provNoBucket.clientResult = Except.ok () ∧
    provNoBucket.existsResult = Except.ok false ∧
    (init_gcs_client cfgMB provNoBucket GCSState.initial).1 = false ∧
    (init_gcs_client cfgMB provNoBucket GCSState.initial).2._bucket
      = some ⟨"my-bucket"⟩ ∧
    ((upload_hero_image provOk
        (init_gcs_client cfgMB provNoBucket GCSState.initial).2 0 []
        "photo.png" "image/png").1).1 = true ∧
    (delete_hero_image provOk
        (init_gcs_client cfgMB provNoBucket GCSState.initial).2
        "hero_images/a.jpg").1 = true :=
  ⟨by decide, rfl, rfl,
    (C9_init_not_atomic cfgMB provNoBucket GCSState.initial (by decide) rfl
      rfl).1,
    (C9_init_not_atomic cfgMB provNoBucket GCSState.initial (by decide) rfl
      rfl).2.1,
    (C9_init_not_atomic cfgMB provNoBucket GCSState.initial (by decide) rfl
      rfl).2.2.2.1 provOk 0 [] "photo.png" "image/png" rfl,
    (C9_init_not_atomic cfgMB provNoBucket GCSState.initial (by decide) rfl
      rfl).2.2.2.2 provOk "hero_images/a.jpg" rfl⟩

/-- C10: neither `upload_hero_image` nor `delete_hero_image` ever modifies
the process-wide module state, on success or on failure, for every provider
behaviour. -/
theorem C10_ops_preserve_state (prov : Provider) (st : GCSState) (u : Nat)
    (file_data : List Nat) (filename content_type object_name : String) :
    (upload_hero_image prov st u file_data filename content_type).2 = st ∧
    (delete_hero_image prov st object_name).2 = st := by
  constructor
  · cases hb : st._bucket with
    | none => simp [upload_hero_image, hb]
    | some b =>
      cases hr : prov.uploadResult with
      | ok v => simp [upload_hero_image, hb, hr]
      | error e => simp [upload_hero_image, hb, hr]
  · cases hb : st._bucket with
    | none => simp [delete_hero_image, hb]
    | some b =>
      cases hr : prov.deleteResult with
      | ok v => simp [delete_hero_image, hb, hr]
      | error e => cases e <;> simp [delete_hero_image, hb, hr]

end GcsService
